import Mathlib

set_option maxRecDepth 100000

/-!
Verification of the `unik` UUID crate.

The definitions below are a shallow embedding of `src/lib.rs`,
`src/rfc/v2.rs` and `src/rfc4122/v3.rs`.  Machine integers (`u8`, `u16`,
`u32`, `u64`) are embedded as `Nat` with explicit `% 2^w` truncation at the
points where the Rust code truncates; Rust strings are embedded as their
UTF-8 byte sequences (`List Nat`); `Result<T, &str>` is embedded as
`RResult`; functions that can additionally panic return `StrOutcome`.
-/

/-- The `Version` enum of `src/lib.rs` (discriminants 1..5). -/
inductive Version where
  | TIME
  | DCE
  | MD5
  | RAND
  | SHA1
  deriving DecidableEq, Repr

/-- `Version as u8`: Rust assigns `TIME = 1` and increments. -/
def Version.toU8 : Version → Nat
  | .TIME => 1
  | .DCE => 2
  | .MD5 => 3
  | .RAND => 4
  | .SHA1 => 5

/-- The `Variant` enum of `src/lib.rs` (discriminants 0..3). -/
inductive Variant where
  | NCS
  | RFC4122
  | MS
  | FUT
  deriving DecidableEq, Repr

/-- `Variant as u8`: Rust assigns `NCS = 0` and increments. -/
def Variant.toU8 : Variant → Nat
  | .NCS => 0
  | .RFC4122 => 1
  | .MS => 2
  | .FUT => 3

/-- The `Domain` enum of `src/rfc/v2.rs` (`PERSON = 0`, `GROUP = 1`). -/
inductive Domain where
  | PERSON
  | GROUP
  deriving DecidableEq, Repr

/-- `Domain as u8`. -/
def Domain.toU8 : Domain → Nat
  | .PERSON => 0
  | .GROUP => 1

/-- Rust `Result<α, &str>`, the return type of `get_version`/`get_variant`. -/
inductive RResult (α : Type) where
  | ok : α → RResult α
  | err : String → RResult α
  deriving DecidableEq, Repr

/-- Outcome of a Rust computation that can also panic (e.g. out-of-bounds or
non-char-boundary string slicing in `UUID::from_str`). -/
inductive StrOutcome (α : Type) where
  | panic : StrOutcome α
  | err : String → StrOutcome α
  | ok : α → StrOutcome α
  deriving DecidableEq, Repr

/-- `TimeStamp(pub u64)` of `src/lib.rs`. -/
structure TimeStamp where
  val : Nat
  deriving DecidableEq, Repr

/-- The `Layout` struct of `src/lib.rs`: `field_low : u32`, `field_mid : u16`,
`field_high_and_version : u16`, `clock_seq_high_and_reserved : u8`,
`clock_seq_low : u8`, `node : MacAddress` (six raw bytes). -/
structure Layout where
  field_low : Nat
  field_mid : Nat
  field_high_and_version : Nat
  clock_seq_high_and_reserved : Nat
  clock_seq_low : Nat
  node : List Nat
  deriving DecidableEq, Repr

/-- The `UUID` tuple struct of `src/lib.rs`: sixteen raw bytes. -/
structure UUID where
  bytes : List Nat
  deriving DecidableEq, Repr

/-- `UUID::as_bytes`. -/
def UUID.as_bytes (u : UUID) : List Nat := u.bytes

/-- The Rust `Layout` fields are in range and the node holds six bytes;
guaranteed by the Rust types (`u32`, `u16`, `u8`, `[u8; 6]`). -/
def Layout.WF (l : Layout) : Prop :=
  l.field_low < 4294967296 ∧ l.field_mid < 65536 ∧
    l.field_high_and_version < 65536 ∧ l.clock_seq_high_and_reserved < 256 ∧
    l.clock_seq_low < 256 ∧ l.node.length = 6 ∧ ∀ x ∈ l.node, x < 256

instance (l : Layout) : Decidable l.WF := by
  unfold Layout.WF
  infer_instance

/-- `u32::from_le_bytes([a0, a1, a2, a3])`: little-endian reassembly
(`a0` is the least significant byte). -/
def u32_from_le_bytes (a0 a1 a2 a3 : Nat) : Nat :=
  a0 + a1 * 256 + a2 * 65536 + a3 * 16777216

/-- `u16::from_le_bytes([a0, a1])`. -/
def u16_from_le_bytes (a0 a1 : Nat) : Nat := a0 + a1 * 256

/-- `Layout::from_bytes` (`src/lib.rs` lines 47-64): note the reversed byte
order fed to `from_le_bytes`, so each field is big-endian on the wire. -/
def Layout.from_bytes (bytes : List Nat) : Layout :=
  { field_low := u32_from_le_bytes (bytes.getD 3 0) (bytes.getD 2 0) (bytes.getD 1 0) (bytes.getD 0 0)
  , field_mid := u16_from_le_bytes (bytes.getD 5 0) (bytes.getD 4 0)
  , field_high_and_version := u16_from_le_bytes (bytes.getD 7 0) (bytes.getD 6 0)
  , clock_seq_high_and_reserved := bytes.getD 8 0
  , clock_seq_low := bytes.getD 9 0
  , node := [bytes.getD 10 0, bytes.getD 11 0, bytes.getD 12 0,
             bytes.getD 13 0, bytes.getD 14 0, bytes.getD 15 0] }

/-- `Layout::generate` (`src/lib.rs` lines 67-86).  `x.to_le_bytes()[k]` is
the `k`-th little-endian byte, i.e. `x / 256^k % 256`; the code emits the
bytes of each field most-significant first. -/
def Layout.generate (l : Layout) : UUID :=
  ⟨[l.field_low / 16777216 % 256, l.field_low / 65536 % 256,
    l.field_low / 256 % 256, l.field_low % 256,
    l.field_mid / 256 % 256, l.field_mid % 256,
    l.field_high_and_version / 256 % 256, l.field_high_and_version % 256,
    l.clock_seq_high_and_reserved, l.clock_seq_low,
    l.node.getD 0 0, l.node.getD 1 0, l.node.getD 2 0,
    l.node.getD 3 0, l.node.getD 4 0, l.node.getD 5 0]⟩

/-- `Layout::get_version` (`src/lib.rs` lines 89-98): match on
`field_high_and_version >> 12`. -/
def Layout.get_version (l : Layout) : RResult Version :=
  match l.field_high_and_version >>> 12 with
  | 1 => .ok .TIME
  | 2 => .ok .DCE
  | 3 => .ok .MD5
  | 4 => .ok .RAND
  | 5 => .ok .SHA1
  | _ => .err "Invalid version"

/-- `Layout::get_variant` (`src/lib.rs` lines 101-109): match on
`clock_seq_high_and_reserved >> 4` (a fixed 4-bit nibble). -/
def Layout.get_variant (l : Layout) : RResult Variant :=
  match l.clock_seq_high_and_reserved >>> 4 with
  | 0 => .ok .NCS
  | 1 => .ok .RFC4122
  | 2 => .ok .MS
  | 3 => .ok .FUT
  | _ => .err "Invalid variant"

/-- `ClockSeq::new` (`src/lib.rs` lines 306-310):
`AtomicU16::new(rand).fetch_add(1, SeqCst)` creates a fresh atomic cell from
the seed, increments it (the incremented cell is immediately dropped), and
returns the pre-increment value, i.e. the seed itself. -/
def ClockSeq.new (rand : Nat) : Nat :=
  let atomic := rand % 65536
  let _post_increment := (atomic + 1) % 65536
  atomic

/-- The `layout!` macro of `src/lib.rs` (lines 312-327): packs sixteen bytes
into a `Layout`, masking byte 8 to its low nibble and writing
`Variant::RFC4122 as u8` (that is, `1`) into its high nibble. -/
def layout (b0 b1 b2 b3 b4 b5 b6 b7 b8 b9 b10 b11 b12 b13 b14 b15 : Nat) : Layout :=
  { field_low := b0 ||| (b1 <<< 8) ||| (b2 <<< 16) ||| (b3 <<< 24)
  , field_mid := b4 ||| (b5 <<< 8)
  , field_high_and_version := b6 ||| (b7 <<< 8)
  , clock_seq_high_and_reserved := (b8 &&& 15) ||| (Variant.toU8 .RFC4122 <<< 4)
  , clock_seq_low := b9
  , node := [b10, b11, b12, b13, b14, b15] }

/-- `UUID::NAMESPACE_DNS`. -/
def NAMESPACE_DNS : UUID :=
  ⟨[0x6b, 0xa7, 0xb8, 0x10, 0x9d, 0xad, 0x11, 0xd1,
    0x80, 0xb4, 0x00, 0xc0, 0x4f, 0xd4, 0x30, 0xc8]⟩

/-- `UUID::NAMESPACE_OID`. -/
def NAMESPACE_OID : UUID :=
  ⟨[0x6b, 0xa7, 0xb8, 0x12, 0x9d, 0xad, 0x11, 0xd1,
    0x80, 0xb4, 0x00, 0xc0, 0x4f, 0xd4, 0x30, 0xc8]⟩

/-- `UUID::NAMESPACE_URL`. -/
def NAMESPACE_URL : UUID :=
  ⟨[0x6b, 0xa7, 0xb8, 0x11, 0x9d, 0xad, 0x11, 0xd1,
    0x80, 0xb4, 0x00, 0xc0, 0x4f, 0xd4, 0x30, 0xc8]⟩

/-- `UUID::NAMESPACE_X500`. -/
def NAMESPACE_X500 : UUID :=
  ⟨[0x6b, 0xa7, 0xb8, 0x14, 0x9d, 0xad, 0x11, 0xd1,
    0x80, 0xb4, 0x00, 0xc0, 0x4f, 0xd4, 0x30, 0xc8]⟩

/-- `u8::is_ascii_whitespace`: space, tab, line feed, form feed, carriage
return (the predicate `UUID::from_str` strips together with hyphens). -/
def isAsciiWhitespace (c : Nat) : Bool :=
  c == 32 || c == 9 || c == 10 || c == 12 || c == 13

/-- `str::is_char_boundary` on a UTF-8 byte sequence: position 0, the end, or
any byte that is not a continuation byte (`0x80..0xBF`). -/
def isCharBoundary (us : List Nat) (p : Nat) : Bool :=
  if p = 0 then true
  else if p = us.length then true
  else if p > us.length then false
  else decide (us.getD p 0 < 128 ∨ 192 ≤ us.getD p 0)

/-- Hex value of one ASCII character, as accepted by
`u8::from_str_radix(_, 16)` (`0-9`, `a-f`, `A-F`). -/
def hexVal (c : Nat) : Option Nat :=
  if 48 ≤ c ∧ c ≤ 57 then some (c - 48)
  else if 97 ≤ c ∧ c ≤ 102 then some (c - 87)
  else if 65 ≤ c ∧ c ≤ 70 then some (c - 55)
  else none

/-- Digit-accumulation loop of `u8::from_str_radix(_, 16)`, with the `u8`
overflow check. -/
def hexAccum (s : List Nat) (acc : Nat) : Option Nat :=
  match s with
  | [] => some acc
  | c :: rest =>
    match hexVal c with
    | none => none
    | some d => if acc * 16 + d > 255 then none else hexAccum rest (acc * 16 + d)

/-- `u8::from_str_radix(s, 16)`: an optional leading `+` sign, then at least
one hex digit (Rust's integer parsing accepts a leading `+`; a leading `-`
on an unsigned type is an invalid digit). -/
def fromStrRadix16u8 (s : List Nat) : Option Nat :=
  match s with
  | [] => none
  | c :: rest =>
    if c = 43 then (if rest = [] then none else hexAccum rest 0)
    else hexAccum s 0

/-- The slice-and-parse step `u8::from_str_radix(&us[i*2..i*2+2], 16)` of
`UUID::from_str`: Rust string slicing panics when the range leaves the
string or when either end is not a character boundary. -/
def readPair (us : List Nat) (i : Nat) : StrOutcome Nat :=
  if 2 * i + 2 > us.length then .panic
  else if !isCharBoundary us (2 * i) || !isCharBoundary us (2 * i + 2) then .panic
  else
    match fromStrRadix16u8 ((us.drop (2 * i)).take 2) with
    | some b => .ok b
    | none => .err "Invalid UUID string"

/-- The `for i in 0..15` loop of `UUID::from_str`: reads `n` byte pairs
starting at pair index `i`, stopping at the first error or panic. -/
def collectFrom (us : List Nat) (i : Nat) : Nat → StrOutcome (List Nat)
  | 0 => .ok []
  | n + 1 =>
    match readPair us i with
    | .panic => .panic
    | .err m => .err m
    | .ok b =>
      match collectFrom us (i + 1) n with
      | .panic => .panic
      | .err m => .err m
      | .ok bs => .ok (b :: bs)

/-- `UUID::from_str` (`src/lib.rs` lines 150-173).  Accepts only lengths 36
and 32; strips ASCII whitespace and hyphens only when a hyphen is present;
the loop `for i in 0..15` fills `bytes[0]..bytes[14]`, leaving `bytes[15]`
at its `[0; 16]` initial value (here mirrored by `getD 15` on the 15-element
result defaulting to 0); the final `layout!` call receives the bytes in the
source's order, i.e. pairs swapped for indices 0-7 and also for 8/9. -/
def UUID.from_str (us : List Nat) : StrOutcome Layout :=
  if us.length = 36 ∨ us.length = 32 then
    match collectFrom
        (if us.contains 45 then
          us.filter (fun c => !isAsciiWhitespace c && !(c == 45))
         else us) 0 15 with
    | .panic => .panic
    | .err m => .err m
    | .ok bs =>
      .ok (layout (bs.getD 3 0) (bs.getD 2 0) (bs.getD 1 0) (bs.getD 0 0)
        (bs.getD 5 0) (bs.getD 4 0) (bs.getD 7 0) (bs.getD 6 0)
        (bs.getD 9 0) (bs.getD 8 0) (bs.getD 10 0) (bs.getD 11 0)
        (bs.getD 12 0) (bs.getD 13 0) (bs.getD 14 0) (bs.getD 15 0))
  else .err "Invalid UUID string"

/-- Lowercase hex digit character code (`{:02x}` digit). -/
def hexChar (n : Nat) : Nat := if n < 10 then 48 + n else 87 + n

/-- `{:02x}` formatting of one byte. -/
def byteHex (b : Nat) : List Nat := [hexChar (b / 16), hexChar (b % 16)]

/-- `fmt::LowerHex for UUID` (`src/lib.rs` lines 201-224): hyphenated
lowercase hex, byte groups 4-2-2-2-6. -/
def UUID.lowerHex (u : UUID) : List Nat :=
  byteHex (u.bytes.getD 0 0) ++ byteHex (u.bytes.getD 1 0) ++
  byteHex (u.bytes.getD 2 0) ++ byteHex (u.bytes.getD 3 0) ++ [45] ++
  byteHex (u.bytes.getD 4 0) ++ byteHex (u.bytes.getD 5 0) ++ [45] ++
  byteHex (u.bytes.getD 6 0) ++ byteHex (u.bytes.getD 7 0) ++ [45] ++
  byteHex (u.bytes.getD 8 0) ++ byteHex (u.bytes.getD 9 0) ++ [45] ++
  byteHex (u.bytes.getD 10 0) ++ byteHex (u.bytes.getD 11 0) ++
  byteHex (u.bytes.getD 12 0) ++ byteHex (u.bytes.getD 13 0) ++
  byteHex (u.bytes.getD 14 0) ++ byteHex (u.bytes.getD 15 0)

/-- Left rotation of a 32-bit word. -/
def rotl (s x : Nat) : Nat := ((x <<< s) ||| (x >>> (32 - s))) % 4294967296

/-- SHA-1 round function (`0xFFFFFFFF ^ b` is 32-bit complement). -/
def sha1F (i b c d : Nat) : Nat :=
  if i < 20 then (b &&& c) ||| ((b ^^^ 4294967295) &&& d)
  else if i < 40 then b ^^^ c ^^^ d
  else if i < 60 then (b &&& c) ||| (b &&& d) ||| (c &&& d)
  else b ^^^ c ^^^ d

/-- SHA-1 round constants. -/
def sha1K (i : Nat) : Nat :=
  if i < 20 then 0x5A827999
  else if i < 40 then 0x6ED9EBA1
  else if i < 60 then 0x8F1BBCDC
  else 0xCA62C1D6

/-- Big-endian 32-bit words from bytes. -/
def bytesToWords : List Nat → List Nat
  | b0 :: b1 :: b2 :: b3 :: rest =>
    (b0 * 16777216 + b1 * 65536 + b2 * 256 + b3) :: bytesToWords rest
  | _ => []

/-- SHA-1 message-schedule extension; the accumulator holds the words most
recent first, so `w[i-3]`, `w[i-8]`, `w[i-14]`, `w[i-16]` are positions 2,
7, 13, 15. -/
def sha1ExtendRev (acc : List Nat) : Nat → List Nat
  | 0 => acc
  | n + 1 =>
    sha1ExtendRev
      (rotl 1 (acc.getD 2 0 ^^^ acc.getD 7 0 ^^^ acc.getD 13 0 ^^^ acc.getD 15 0) :: acc) n

/-- The eighty scheduled words of one block. -/
def sha1Schedule (ws : List Nat) : List Nat := (sha1ExtendRev ws.reverse 64).reverse

/-- The eighty SHA-1 rounds. -/
def sha1Rounds (i : Nat) (ws : List Nat) (st : Nat × Nat × Nat × Nat × Nat) :
    Nat × Nat × Nat × Nat × Nat :=
  match ws with
  | [] => st
  | w :: rest =>
    match st with
    | (a, b, c, d, e) =>
      sha1Rounds (i + 1) rest
        ((rotl 5 a + sha1F i b c d + e + sha1K i + w) % 4294967296,
         a, rotl 30 b, c, d)

/-- One SHA-1 compression step. -/
def sha1Block (h : Nat × Nat × Nat × Nat × Nat) (block : List Nat) :
    Nat × Nat × Nat × Nat × Nat :=
  match h with
  | (h0, h1, h2, h3, h4) =>
    match sha1Rounds 0 (sha1Schedule (bytesToWords block)) (h0, h1, h2, h3, h4) with
    | (a, b, c, d, e) =>
      ((h0 + a) % 4294967296, (h1 + b) % 4294967296, (h2 + c) % 4294967296,
       (h3 + d) % 4294967296, (h4 + e) % 4294967296)

/-- Big-endian bytes of the 64-bit message bit length. -/
def u64BE (x : Nat) : List Nat :=
  [x / 72057594037927936 % 256, x / 281474976710656 % 256, x / 1099511627776 % 256,
   x / 4294967296 % 256, x / 16777216 % 256, x / 65536 % 256, x / 256 % 256, x % 256]

/-- SHA-1 padding: `0x80`, zeros to 56 mod 64, then the 64-bit bit length. -/
def sha1Pad (msg : List Nat) : List Nat :=
  msg ++ 128 :: (List.replicate ((119 - msg.length % 64) % 64) 0 ++ u64BE (8 * msg.length))

/-- Split into 64-byte blocks (fuel argument keeps the recursion structural). -/
def toBlocksFuel : Nat → List Nat → List (List Nat)
  | 0, _ => []
  | _, [] => []
  | n + 1, l => l.take 64 :: toBlocksFuel n (l.drop 64)

/-- Split a byte sequence into 64-byte blocks. -/
def toBlocks (l : List Nat) : List (List Nat) := toBlocksFuel l.length l

/-- 32-bit words to big-endian bytes. -/
def wordsToBytes : List Nat → List Nat
  | [] => []
  | w :: ws =>
    w / 16777216 % 256 :: w / 65536 % 256 :: w / 256 % 256 :: w % 256 :: wordsToBytes ws

/-- SHA-1 of a byte sequence: the `Sha1::from(..).digest().bytes()` pipeline
of the `sha1` crate used by `UUID::v3`. -/
def sha1 (msg : List Nat) : List Nat :=
  wordsToBytes
    (match (toBlocks (sha1Pad msg)).foldl sha1Block
        (0x67452301, 0xEFCDAB89, 0x98BADCFE, 0x10325476, 0xC3D2E1F0) with
     | (h0, h1, h2, h3, h4) => [h0, h1, h2, h3, h4])

/-- `UUID::v3` (`src/rfc4122/v3.rs` lines 7-30): SHA-1 over the hyphenated
lowercase hex form of the namespace (`format!("{:x}", ns)`) concatenated
with the name; the first 16 digest bytes go to `layout!`, except that
argument 7 is replaced by `(Version::MD5 as u8) << 4` (digest byte 7 is
dropped). -/
def UUID.v3 (data : List Nat) (ns : UUID) : Layout :=
  let hash := (sha1 (UUID.lowerHex ns ++ data)).take 16
  layout (hash.getD 0 0) (hash.getD 1 0) (hash.getD 2 0) (hash.getD 3 0)
    (hash.getD 4 0) (hash.getD 5 0) (hash.getD 6 0) (Version.toU8 .MD5 <<< 4)
    (hash.getD 8 0) (hash.getD 9 0) (hash.getD 10 0) (hash.getD 11 0)
    (hash.getD 12 0) (hash.getD 13 0) (hash.getD 14 0) (hash.getD 15 0)

/-- `UUID::v2` (`src/rfc/v2.rs` lines 10-42).  The platform identity number
(`libc::getuid()` for PERSON, `libc::getgid()` for GROUP) is an environment
input, passed here as the `uid`/`gid` parameters.  Modelled from the spec:
the function `crate::clock_seq_high_and_reserved()` called for byte 8 is not
present in the sources; per the spec's clock-sequence section it supplies a
16-bit counter value, passed here as the `csh` parameter (the claims hold
for every value).  `to_ne_bytes` is native-endian, modelled as
little-endian.  Argument 7 of `layout!` is `(Version::DCE as u8) << 4`. -/
def UUID.v2 (time : TimeStamp) (node : List Nat) (domain : Domain)
    (uid gid csh : Nat) : Layout :=
  let id := match domain with
    | .PERSON => uid
    | .GROUP => gid
  layout (id % 256) (id / 256 % 256) (id / 65536 % 256) (id / 16777216 % 256)
    (time.val % 256) (time.val / 256 % 256) (time.val / 65536 % 256)
    (Version.toU8 .DCE <<< 4)
    (csh % 256) (Domain.toU8 domain)
    (node.getD 0 0) (node.getD 1 0) (node.getD 2 0)
    (node.getD 3 0) (node.getD 4 0) (node.getD 5 0)

/-- UTF-8 bytes of the name `"test"` used by the repository's v3 test. -/
def testName : List Nat := [116, 101, 115, 116]

/-- UTF-8 bytes of the name `"unik"`. -/
def unikName : List Nat := [117, 110, 105, 107]

/-- UTF-8 bytes of `"6ba7b810-9dad-11d1-80b4-00c04fd430zz"`: length 36,
hyphenated, with non-hex trailing characters. -/
def zzInput : List Nat :=
  [54, 98, 97, 55, 98, 56, 49, 48, 45, 57, 100, 97, 100, 45, 49, 49, 100, 49,
   45, 56, 48, 98, 52, 45, 48, 48, 99, 48, 52, 102, 100, 52, 51, 48, 122, 122]

/-- C1: byte-layout round trip.  For every 16-byte array `b`,
`Layout::from_bytes(b).generate().as_bytes() == b`; and for every well-formed
`Layout` `l`, `Layout::from_bytes(l.generate().as_bytes()) == l`. -/
theorem bytes_layout_roundtrip :
    (∀ b : List Nat, b.length = 16 → (∀ x ∈ b, x < 256) →
      ((Layout.from_bytes b).generate).as_bytes = b) ∧
    (∀ l : Layout, l.WF → Layout.from_bytes ((l.generate).as_bytes) = l) := by
  constructor
  · intro b hlen hmem
    rcases b with _ | ⟨b0, b⟩; · simp at hlen
    rcases b with _ | ⟨b1, b⟩; · simp at hlen
    rcases b with _ | ⟨b2, b⟩; · simp at hlen
    rcases b with _ | ⟨b3, b⟩; · simp at hlen
    rcases b with _ | ⟨b4, b⟩; · simp at hlen
    rcases b with _ | ⟨b5, b⟩; · simp at hlen
    rcases b with _ | ⟨b6, b⟩; · simp at hlen
    rcases b with _ | ⟨b7, b⟩; · simp at hlen
    rcases b with _ | ⟨b8, b⟩; · simp at hlen
    rcases b with _ | ⟨b9, b⟩; · simp at hlen
    rcases b with _ | ⟨b10, b⟩; · simp at hlen
    rcases b with _ | ⟨b11, b⟩; · simp at hlen
    rcases b with _ | ⟨b12, b⟩; · simp at hlen
    rcases b with _ | ⟨b13, b⟩; · simp at hlen
    rcases b with _ | ⟨b14, b⟩; · simp at hlen
    rcases b with _ | ⟨b15, b⟩; · simp at hlen
    have hb : b = [] := by
      cases b with
      | nil => rfl
      | cons x xs => simp at hlen
    subst hb
    simp only [List.forall_mem_cons, List.forall_mem_ne, List.not_mem_nil] at hmem
    obtain ⟨h0, h1, h2, h3, h4, h5, h6, h7, h8, h9, h10, h11, h12, h13, h14, h15, -⟩ := hmem
    simp only [Layout.from_bytes, Layout.generate, UUID.as_bytes,
      u32_from_le_bytes, u16_from_le_bytes,
      List.getD_cons_zero, List.getD_cons_succ, List.cons.injEq, and_true]
    omega
  · intro l hWF
    obtain ⟨fl, fm, fh, csh, csl, nd⟩ := l
    obtain ⟨w1, w2, w3, w4, w5, w6, w7⟩ := hWF
    simp only at w1 w2 w3 w4 w5 w6 w7
    rcases nd with _ | ⟨n0, nd⟩; · simp at w6
    rcases nd with _ | ⟨n1, nd⟩; · simp at w6
    rcases nd with _ | ⟨n2, nd⟩; · simp at w6
    rcases nd with _ | ⟨n3, nd⟩; · simp at w6
    rcases nd with _ | ⟨n4, nd⟩; · simp at w6
    rcases nd with _ | ⟨n5, nd⟩; · simp at w6
    have hnd : nd = [] := by
      cases nd with
      | nil => rfl
      | cons x xs => simp at w6
    subst hnd
    simp only [Layout.from_bytes, Layout.generate, UUID.as_bytes,
      u32_from_le_bytes, u16_from_le_bytes,
      List.getD_cons_zero, List.getD_cons_succ, Layout.mk.injEq,
      List.cons.injEq, and_true]
    and_intros <;> first | rfl | omega

/-- Witness for C1 at the DNS namespace bytes. -/
theorem bytes_layout_roundtrip_witness :
    ((Layout.from_bytes NAMESPACE_DNS.bytes).generate).as_bytes = NAMESPACE_DNS.bytes ∧
    Layout.from_bytes (((Layout.from_bytes NAMESPACE_DNS.bytes).generate)).as_bytes =
      Layout.from_bytes NAMESPACE_DNS.bytes :=
  ⟨bytes_layout_roundtrip.1 NAMESPACE_DNS.bytes (by decide) (by decide),
   bytes_layout_roundtrip.2 (Layout.from_bytes NAMESPACE_DNS.bytes) (by decide)⟩

/-! ## Helper lemmas about the bit packing of `layout!` -/

/-- Disjoint bitwise-or is addition. -/
theorem lor_shiftLeft_eq_add {a : Nat} (b n : Nat) (h : a < 2 ^ n) :
    a ||| (b <<< n) = a + b * 2 ^ n := by
  rw [Nat.shiftLeft_eq, Nat.lor_comm, Nat.mul_comm b (2 ^ n),
    ← Nat.mul_add_lt_is_or h]
  omega

/-- Disjoint or with a 4-bit shift. -/
theorem lor_shl4 (a b : Nat) (h : a < 16) : a ||| (b <<< 4) = a + b * 16 := by
  have h2 : (2 : Nat) ^ 4 = 16 := by norm_num
  have h3 := lor_shiftLeft_eq_add (a := a) b 4 (by omega)
  rw [h2] at h3
  exact h3

/-- Disjoint or with an 8-bit shift. -/
theorem lor_shl8 (a b : Nat) (h : a < 256) : a ||| (b <<< 8) = a + b * 256 := by
  have h2 : (2 : Nat) ^ 8 = 256 := by norm_num
  have h3 := lor_shiftLeft_eq_add (a := a) b 8 (by omega)
  rw [h2] at h3
  exact h3

/-- Disjoint or with a 16-bit shift. -/
theorem lor_shl16 (a b : Nat) (h : a < 65536) : a ||| (b <<< 16) = a + b * 65536 := by
  have h2 : (2 : Nat) ^ 16 = 65536 := by norm_num
  have h3 := lor_shiftLeft_eq_add (a := a) b 16 (by omega)
  rw [h2] at h3
  exact h3

/-- Disjoint or with a 24-bit shift. -/
theorem lor_shl24 (a b : Nat) (h : a < 16777216) : a ||| (b <<< 24) = a + b * 16777216 := by
  have h2 : (2 : Nat) ^ 24 = 16777216 := by norm_num
  have h3 := lor_shiftLeft_eq_add (a := a) b 24 (by omega)
  rw [h2] at h3
  exact h3

/-- The low-nibble mask of `layout!`. -/
theorem and15_eq_mod (x : Nat) : x &&& 15 = x % 16 := by
  have h := Nat.and_pow_two_sub_one_eq_mod x 4
  norm_num at h
  exact h

/-- Serialization of a `layout!`-built Layout: pairs re-reversed for the
multi-byte fields, byte 8 masked and tagged. -/
theorem layout_generate_bytes (b0 b1 b2 b3 b4 b5 b6 b7 b8 b9 b10 b11 b12 b13 b14 b15 : Nat)
    (h0 : b0 < 256) (h1 : b1 < 256) (h2 : b2 < 256) (h3 : b3 < 256)
    (h4 : b4 < 256) (h5 : b5 < 256) (h6 : b6 < 256) (h7 : b7 < 256) :
    ((layout b0 b1 b2 b3 b4 b5 b6 b7 b8 b9 b10 b11 b12 b13 b14 b15).generate).as_bytes =
      [b3, b2, b1, b0, b5, b4, b7, b6, 16 + b8 % 16, b9, b10, b11, b12, b13, b14, b15] := by
  simp only [layout, Layout.generate, UUID.as_bytes, and15_eq_mod,
    List.getD_cons_zero, List.getD_cons_succ]
  rw [show Variant.toU8 .RFC4122 = 1 from rfl]
  rw [lor_shl8 b0 b1 h0]
  rw [lor_shl16 (b0 + b1 * 256) b2 (by omega)]
  rw [lor_shl24 (b0 + b1 * 256 + b2 * 65536) b3 (by omega)]
  rw [lor_shl8 b4 b5 h4]
  rw [lor_shl8 b6 b7 h6]
  rw [lor_shl4 (b8 % 16) 1 (Nat.mod_lt _ (by omega))]
  simp only [List.cons.injEq, and_true]
  and_intros <;> omega

/-- Byte 8 of every `layout!`-built Layout lies in `0x10..=0x1F`. -/
theorem layout_csh_bounds (b0 b1 b2 b3 b4 b5 b6 b7 b8 b9 b10 b11 b12 b13 b14 b15 : Nat) :
    16 ≤ (layout b0 b1 b2 b3 b4 b5 b6 b7 b8 b9 b10 b11 b12 b13 b14 b15).clock_seq_high_and_reserved ∧
      (layout b0 b1 b2 b3 b4 b5 b6 b7 b8 b9 b10 b11 b12 b13 b14 b15).clock_seq_high_and_reserved < 32 := by
  simp only [layout, and15_eq_mod]
  rw [show Variant.toU8 .RFC4122 = 1 from rfl]
  rw [lor_shl4 (b8 % 16) 1 (Nat.mod_lt _ (by omega))]
  omega

/-- A value in `0x10..=0x1F` has top nibble 1. -/
theorem shr4_eq_one {c : Nat} (h16 : 16 ≤ c) (h32 : c < 32) : c >>> 4 = 1 := by
  have h2 : (2 : Nat) ^ 4 = 16 := by norm_num
  rw [Nat.shiftRight_eq_div_pow]
  omega

/-- A value below 32 has top three bits 0. -/
theorem shr5_eq_zero {c : Nat} (h32 : c < 32) : c >>> 5 = 0 := by
  have h2 : (2 : Nat) ^ 5 = 32 := by norm_num
  rw [Nat.shiftRight_eq_div_pow]
  omega

/-- `get_version` at nibble 2. -/
theorem get_version_two {l : Layout} (h : l.field_high_and_version >>> 12 = 2) :
    l.get_version = .ok .DCE := by
  unfold Layout.get_version
  rw [h]

/-- `get_version` at nibble 3. -/
theorem get_version_three {l : Layout} (h : l.field_high_and_version >>> 12 = 3) :
    l.get_version = .ok .MD5 := by
  unfold Layout.get_version
  rw [h]

/-- `get_variant` at nibble 1. -/
theorem get_variant_one {l : Layout} (h : l.clock_seq_high_and_reserved >>> 4 = 1) :
    l.get_variant = .ok .RFC4122 := by
  unfold Layout.get_variant
  rw [h]

/-- Every `layout!`-built Layout has variant `RFC4122` under `get_variant`. -/
theorem layout_get_variant_rfc (b0 b1 b2 b3 b4 b5 b6 b7 b8 b9 b10 b11 b12 b13 b14 b15 : Nat) :
    (layout b0 b1 b2 b3 b4 b5 b6 b7 b8 b9 b10 b11 b12 b13 b14 b15).get_variant = .ok .RFC4122 := by
  apply get_variant_one
  have h := layout_csh_bounds b0 b1 b2 b3 b4 b5 b6 b7 b8 b9 b10 b11 b12 b13 b14 b15
  exact shr4_eq_one h.1 h.2

/-- Elements of `wordsToBytes` are bytes. -/
theorem wordsToBytes_lt (ws : List Nat) : ∀ x ∈ wordsToBytes ws, x < 256 := by
  induction ws with
  | nil => intro x hx; simp [wordsToBytes] at hx
  | cons w ws ih =>
    intro x hx
    simp only [wordsToBytes, List.mem_cons] at hx
    rcases hx with rfl | rfl | rfl | rfl | hx
    · exact Nat.mod_lt _ (by omega)
    · exact Nat.mod_lt _ (by omega)
    · exact Nat.mod_lt _ (by omega)
    · exact Nat.mod_lt _ (by omega)
    · exact ih x hx

/-- SHA-1 output consists of bytes. -/
theorem sha1_bytes_lt (msg : List Nat) : ∀ x ∈ sha1 msg, x < 256 := by
  intro x hx
  unfold sha1 at hx
  exact wordsToBytes_lt _ x hx

/-- `getD` with default 0 of a list of bytes is a byte. -/
theorem getD_lt_256 : ∀ (l : List Nat), (∀ x ∈ l, x < 256) → ∀ i, l.getD i 0 < 256 := by
  intro l
  induction l with
  | nil => intro _ i; cases i <;> simp [List.getD]
  | cons a l ih =>
    intro h i
    cases i with
    | zero => simp only [List.getD_cons_zero]; exact h a (List.mem_cons_self a l)
    | succ n =>
      simp only [List.getD_cons_succ]
      exact ih (fun x hx => h x (List.mem_cons_of_mem a hx)) n

/-- SHA-1 test vector: the digest of `"abc"`. -/
theorem sha1_abc :
    sha1 [97, 98, 99] =
      [169, 153, 62, 54, 71, 6, 129, 106, 186, 62, 37, 113, 120, 80, 194, 108,
       156, 208, 216, 157] := by decide

/-! ## Claim theorems -/

/-- C2 counterexample: the Layout whose `clock_seq_high_and_reserved` is
`0x70` (top bit 0) is classified by the claimed prefix code as NCS, but
`get_variant` matches the whole top nibble (7) and returns an error. -/
theorem variant_prefix_code_refuted :
    (Layout.from_bytes [0, 0, 0, 0, 0, 0, 0, 0, 112, 0, 0, 0, 0, 0, 0, 0]).get_variant ≠
      RResult.ok Variant.NCS := by decide

/-- C2 amended: `get_variant` discriminates on the fixed 4-bit top nibble
`clock_seq_high_and_reserved >> 4`: exactly nibble 0 is NCS, exactly 1 is
RFC4122, exactly 2 is MS, exactly 3 is FUT, and every nibble at least 4 is
the error `Invalid variant` (so bytes `0x40..0x7F` are errors rather than
NCS, and `0x80..0xBF` are errors rather than RFC4122). -/
theorem variant_top_nibble_classification (l : Layout) :
    (l.get_variant = .ok .NCS ↔ l.clock_seq_high_and_reserved >>> 4 = 0) ∧
    (l.get_variant = .ok .RFC4122 ↔ l.clock_seq_high_and_reserved >>> 4 = 1) ∧
    (l.get_variant = .ok .MS ↔ l.clock_seq_high_and_reserved >>> 4 = 2) ∧
    (l.get_variant = .ok .FUT ↔ l.clock_seq_high_and_reserved >>> 4 = 3) ∧
    (4 ≤ l.clock_seq_high_and_reserved >>> 4 →
      l.get_variant = .err "Invalid variant") := by
  unfold Layout.get_variant
  rcases hk : l.clock_seq_high_and_reserved >>> 4 with _ | _ | _ | _ | k <;>
    simp [hk]

/-- Witness for the amended C2 at a concrete Layout with byte 8 `0x80`. -/
theorem variant_top_nibble_classification_witness :
    (Layout.from_bytes [0, 0, 0, 0, 0, 0, 0, 0, 128, 0, 0, 0, 0, 0, 0, 0]).get_variant =
      .err "Invalid variant" :=
  (variant_top_nibble_classification
    (Layout.from_bytes [0, 0, 0, 0, 0, 0, 0, 0, 128, 0, 0, 0, 0, 0, 0, 0])).2.2.2.2
    (by decide)

/-- C3: `ClockSeq::new` creates a fresh atomic cell on every call and
returns the pre-increment value, i.e. the seed itself; evaluated at the
failing input `rand = 5`, two successive calls both return 5 (no counter
advances across calls), so calls do not return pairwise-distinct values. -/
theorem clockseq_new_returns_seed :
    ClockSeq.new 5 = 5 ∧ ClockSeq.new 5 = ClockSeq.new 5 ∧
      ∀ rand : Nat, ClockSeq.new rand = rand % 65536 :=
  ⟨rfl, rfl, fun _ => rfl⟩

/-- C4 counterexample: at namespace DNS and name `"test"`, serialized byte 0
of `UUID::v3` is digest byte 3 (149), not digest byte 0 (36): digest bits
outside the stamped positions are not preserved at their byte positions. -/
theorem v3_digest_position_refuted :
    ((UUID.v3 testName NAMESPACE_DNS).generate).as_bytes.getD 0 0 ≠
      (sha1 (UUID.lowerHex NAMESPACE_DNS ++ testName)).getD 0 0 := by decide

/-- C4 amended: `UUID::v3` hashes the concatenation of the namespace's
hyphenated lowercase-hex form and the name with SHA-1 and takes the first 16
digest bytes `d0..d15`, but the serialized output permutes them:
`[d3, d2, d1, d0, d5, d4, 0x30, d6, 0x10 + (d8 mod 16), d9, d10..d15]` —
digest bytes 0-5 are byte-swapped within their fields, digest byte 7 is
discarded (the version byte is the constant `0x30`), and byte 8's high
nibble is replaced by 1. -/
theorem v3_digest_permutation (data : List Nat) (ns : UUID) :
    ((UUID.v3 data ns).generate).as_bytes =
      [((sha1 (UUID.lowerHex ns ++ data)).take 16).getD 3 0,
       ((sha1 (UUID.lowerHex ns ++ data)).take 16).getD 2 0,
       ((sha1 (UUID.lowerHex ns ++ data)).take 16).getD 1 0,
       ((sha1 (UUID.lowerHex ns ++ data)).take 16).getD 0 0,
       ((sha1 (UUID.lowerHex ns ++ data)).take 16).getD 5 0,
       ((sha1 (UUID.lowerHex ns ++ data)).take 16).getD 4 0,
       48,
       ((sha1 (UUID.lowerHex ns ++ data)).take 16).getD 6 0,
       16 + ((sha1 (UUID.lowerHex ns ++ data)).take 16).getD 8 0 % 16,
       ((sha1 (UUID.lowerHex ns ++ data)).take 16).getD 9 0,
       ((sha1 (UUID.lowerHex ns ++ data)).take 16).getD 10 0,
       ((sha1 (UUID.lowerHex ns ++ data)).take 16).getD 11 0,
       ((sha1 (UUID.lowerHex ns ++ data)).take 16).getD 12 0,
       ((sha1 (UUID.lowerHex ns ++ data)).take 16).getD 13 0,
       ((sha1 (UUID.lowerHex ns ++ data)).take 16).getD 14 0,
       ((sha1 (UUID.lowerHex ns ++ data)).take 16).getD 15 0] := by
  have hall : ∀ x ∈ (sha1 (UUID.lowerHex ns ++ data)).take 16, x < 256 :=
    fun x hx => sha1_bytes_lt (UUID.lowerHex ns ++ data) x (List.take_subset 16 _ hx)
  have hd : ∀ i, ((sha1 (UUID.lowerHex ns ++ data)).take 16).getD i 0 < 256 :=
    getD_lt_256 _ hall
  simp only [UUID.v3]
  rw [show (Version.toU8 .MD5 <<< 4) = 48 from rfl]
  rw [layout_generate_bytes _ _ _ _ _ _ _ _ _ _ _ _ _ _ _ _
    (hd 0) (hd 1) (hd 2) (hd 3) (hd 4) (hd 5) (hd 6) (by omega)]

/-- C5: every `UUID::v2` output has version DCE and variant RFC4122 and
every `UUID::v3` output has version MD5 and variant RFC4122, for all
timestamps, nodes, domains, environment identity numbers, clock-sequence
values, names and namespaces. -/
theorem generators_stamp_version_variant :
    ∀ (time : TimeStamp) (node : List Nat) (domain : Domain) (uid gid csh : Nat)
      (data : List Nat) (ns : UUID),
      (UUID.v2 time node domain uid gid csh).get_version = .ok .DCE ∧
      (UUID.v2 time node domain uid gid csh).get_variant = .ok .RFC4122 ∧
      (UUID.v3 data ns).get_version = .ok .MD5 ∧
      (UUID.v3 data ns).get_variant = .ok .RFC4122 := by
  intro time node domain uid gid csh data ns
  refine ⟨?_, ?_, ?_, ?_⟩
  · apply get_version_two
    simp only [UUID.v2, layout]
    rw [show (Version.toU8 .DCE <<< 4) = 32 from rfl]
    have hb : time.val / 65536 % 256 < 256 := Nat.mod_lt _ (by omega)
    rw [lor_shl8 _ 32 hb]
    rw [Nat.shiftRight_eq_div_pow]
    have h2 : (2 : Nat) ^ 12 = 4096 := by norm_num
    omega
  · simp only [UUID.v2]
    apply layout_get_variant_rfc
  · apply get_version_three
    simp only [UUID.v3, layout]
    rw [show (Version.toU8 .MD5 <<< 4) = 48 from rfl]
    have hb : ((sha1 (UUID.lowerHex ns ++ data)).take 16).getD 6 0 < 256 :=
      getD_lt_256 _ (fun x hx => sha1_bytes_lt _ x (List.take_subset 16 _ hx)) 6
    rw [lor_shl8 _ 48 hb]
    rw [Nat.shiftRight_eq_div_pow]
    have h2 : (2 : Nat) ^ 12 = 4096 := by norm_num
    omega
  · simp only [UUID.v3]
    apply layout_get_variant_rfc

/-- C6: `UUID::v3` is a pure function of its (name, namespace) arguments —
repeated calls agree — and distinct names yield distinct Layouts at the
test corpus namespaces (shown concretely for `"test"` vs `"unik"` under the
DNS and URL namespaces). -/
theorem v3_deterministic_and_name_sensitive :
    (∀ (data : List Nat) (ns : UUID), UUID.v3 data ns = UUID.v3 data ns) ∧
      UUID.v3 testName NAMESPACE_DNS ≠ UUID.v3 unikName NAMESPACE_DNS ∧
      UUID.v3 testName NAMESPACE_URL ≠ UUID.v3 unikName NAMESPACE_URL :=
  ⟨fun _ _ => rfl, by decide, by decide⟩

/-- C7: parsing the hyphenated lowercase-hex form of `NAMESPACE_DNS`
succeeds, but the re-serialized bytes are NOT the original: byte 8 becomes
`0x14` (low nibble of original byte 9, tagged), byte 9 becomes `0x80`
(original byte 8), and byte 15 becomes 0 (the `for i in 0..15` loop never
writes `bytes[15]`), instead of `80 b4 ... c8`. -/
theorem from_str_roundtrip_broken :
    ∃ l : Layout, UUID.from_str (UUID.lowerHex NAMESPACE_DNS) = .ok l ∧
      (l.generate).as_bytes ≠ NAMESPACE_DNS.bytes ∧
      (l.generate).as_bytes =
        [107, 167, 184, 16, 157, 173, 17, 209, 20, 128, 0, 192, 79, 212, 48, 0] :=
  ⟨⟨1806153744, 40365, 4561, 20, 128, [0, 192, 79, 212, 48, 0]⟩,
   by decide, by decide, by decide⟩

/-- C8: `UUID::from_str` accepts `"6ba7b810-9dad-11d1-80b4-00c04fd430zz"`,
a 36-character string whose stripped form ends in the non-hex characters
`zz` (byte 122): the parse loop reads only character pairs 0..14, so the
final pair is never examined and no error is produced. -/
theorem from_str_accepts_trailing_nonhex :
    UUID.from_str zzInput =
        .ok ⟨1806153744, 40365, 4561, 20, 128, [0, 192, 79, 212, 48, 0]⟩ ∧
      zzInput.length = 36 ∧ 122 ∈ zzInput ∧ hexVal 122 = none := by decide

/-- C9: `UUID::from_str` panics on the 36-hyphen input: stripping removes
every character, and the slice `&us[0..2]` of the now-empty string is out
of bounds, a panic rather than a returned `Result`. -/
theorem from_str_panics_on_all_hyphens :
    UUID.from_str (List.replicate 36 45) = .panic := by decide

/-- C10: every Layout produced through `layout!` — every `Ok` result of
`UUID::from_str` and every result of `UUID::v2` and `UUID::v3` — has
`clock_seq_high_and_reserved` in `0x10..=0x1F` (high nibble exactly 1), and
serialized byte 8 therefore has top three bits 0. -/
theorem produced_high_nibble_invariant :
    (∀ us l, UUID.from_str us = .ok l →
      16 ≤ l.clock_seq_high_and_reserved ∧ l.clock_seq_high_and_reserved < 32 ∧
        ((l.generate).as_bytes.getD 8 0) >>> 5 = 0) ∧
    (∀ (time : TimeStamp) (node : List Nat) (domain : Domain) (uid gid csh : Nat),
      16 ≤ (UUID.v2 time node domain uid gid csh).clock_seq_high_and_reserved ∧
        (UUID.v2 time node domain uid gid csh).clock_seq_high_and_reserved < 32 ∧
        (((UUID.v2 time node domain uid gid csh).generate).as_bytes.getD 8 0) >>> 5 = 0) ∧
    (∀ (data : List Nat) (ns : UUID),
      16 ≤ (UUID.v3 data ns).clock_seq_high_and_reserved ∧
        (UUID.v3 data ns).clock_seq_high_and_reserved < 32 ∧
        (((UUID.v3 data ns).generate).as_bytes.getD 8 0) >>> 5 = 0) := by
  have byte8 : ∀ l : Layout, ((l.generate).as_bytes.getD 8 0) = l.clock_seq_high_and_reserved := by
    intro l
    simp [Layout.generate, UUID.as_bytes]
  refine ⟨?_, ?_, ?_⟩
  · intro us l h
    unfold UUID.from_str at h
    split at h
    · split at h
      · exact absurd h (by simp)
      · exact absurd h (by simp)
      · rename_i bs heq
        cases h
        have hb := layout_csh_bounds (bs.getD 3 0) (bs.getD 2 0) (bs.getD 1 0) (bs.getD 0 0)
          (bs.getD 5 0) (bs.getD 4 0) (bs.getD 7 0) (bs.getD 6 0)
          (bs.getD 9 0) (bs.getD 8 0) (bs.getD 10 0) (bs.getD 11 0)
          (bs.getD 12 0) (bs.getD 13 0) (bs.getD 14 0) (bs.getD 15 0)
        refine ⟨hb.1, hb.2, ?_⟩
        rw [byte8]
        exact shr5_eq_zero hb.2
    · exact absurd h (by simp)
  · intro time node domain uid gid csh
    simp only [UUID.v2]
    have hb := layout_csh_bounds ((match domain with | .PERSON => uid | .GROUP => gid) % 256)
      ((match domain with | .PERSON => uid | .GROUP => gid) / 256 % 256)
      ((match domain with | .PERSON => uid | .GROUP => gid) / 65536 % 256)
      ((match domain with | .PERSON => uid | .GROUP => gid) / 16777216 % 256)
      (time.val % 256) (time.val / 256 % 256) (time.val / 65536 % 256)
      (Version.toU8 .DCE <<< 4) (csh % 256) (Domain.toU8 domain)
      (node.getD 0 0) (node.getD 1 0) (node.getD 2 0)
      (node.getD 3 0) (node.getD 4 0) (node.getD 5 0)
    refine ⟨hb.1, hb.2, ?_⟩
    rw [byte8]
    exact shr5_eq_zero hb.2
  · intro data ns
    simp only [UUID.v3]
    have hb := layout_csh_bounds (((sha1 (UUID.lowerHex ns ++ data)).take 16).getD 0 0)
      (((sha1 (UUID.lowerHex ns ++ data)).take 16).getD 1 0)
      (((sha1 (UUID.lowerHex ns ++ data)).take 16).getD 2 0)
      (((sha1 (UUID.lowerHex ns ++ data)).take 16).getD 3 0)
      (((sha1 (UUID.lowerHex ns ++ data)).take 16).getD 4 0)
      (((sha1 (UUID.lowerHex ns ++ data)).take 16).getD 5 0)
      (((sha1 (UUID.lowerHex ns ++ data)).take 16).getD 6 0)
      (Version.toU8 .MD5 <<< 4)
      (((sha1 (UUID.lowerHex ns ++ data)).take 16).getD 8 0)
      (((sha1 (UUID.lowerHex ns ++ data)).take 16).getD 9 0)
      (((sha1 (UUID.lowerHex ns ++ data)).take 16).getD 10 0)
      (((sha1 (UUID.lowerHex ns ++ data)).take 16).getD 11 0)
      (((sha1 (UUID.lowerHex ns ++ data)).take 16).getD 12 0)
      (((sha1 (UUID.lowerHex ns ++ data)).take 16).getD 13 0)
      (((sha1 (UUID.lowerHex ns ++ data)).take 16).getD 14 0)
      (((sha1 (UUID.lowerHex ns ++ data)).take 16).getD 15 0)
    refine ⟨hb.1, hb.2, ?_⟩
    rw [byte8]
    exact shr5_eq_zero hb.2

/-- Witness for C10 at the parsed hyphenated DNS string. -/
theorem produced_high_nibble_invariant_witness :
    16 ≤ (⟨1806153744, 40365, 4561, 20, 128, [0, 192, 79, 212, 48, 0]⟩ : Layout).clock_seq_high_and_reserved ∧
      (⟨1806153744, 40365, 4561, 20, 128, [0, 192, 79, 212, 48, 0]⟩ : Layout).clock_seq_high_and_reserved < 32 ∧
      (((⟨1806153744, 40365, 4561, 20, 128, [0, 192, 79, 212, 48, 0]⟩ : Layout).generate).as_bytes.getD 8 0) >>> 5 = 0 :=
  produced_high_nibble_invariant.1 (UUID.lowerHex NAMESPACE_DNS)
    ⟨1806153744, 40365, 4561, 20, 128, [0, 192, 79, 212, 48, 0]⟩ (by decide)
